import Mathlib

/- Verification of the SNOWPIERCER volume-bot client core against its design
   spec: the delay schedule, the trade-pacing loop and its progress counters
   (src/app/page.tsx), the job-polling variant of the page, and the form
   validation (src/components/Form.tsx).  Machine numbers are modelled as
   exact rationals; `Math.random()` draws are explicit parameters in [0, 1]. -/

/-- The four campaign modes of the `FormData.mode` union. -/
inductive Mode
  | boost
  | bump
  | advanced
  | trending
deriving DecidableEq, Repr

/-- The `FormData` record shared by the page and the form (trending-only
display fields omitted; they are never read by the modelled functions). -/
structure FormData where
  tokenAddress : String
  numberOfTrades : ℕ
  duration : ℚ
  tradeSize : ℚ
  slippageTolerance : ℚ
  mode : Mode
  customDelayMin : Option ℚ := none
  customDelayMax : Option ℚ := none
deriving DecidableEq, Repr

/-- JavaScript `x || d` on an optional numeric field: both `undefined` and
`0` are falsy and select the default. -/
def jsOr (x : Option ℚ) (d : ℚ) : ℚ :=
  match x with
  | none => d
  | some v => if v = 0 then d else v

/-- `calculateDelay` from src/app/page.tsx.  `rand` is the single
`Math.random()` draw made by the call: the advanced branch uses it directly
for the uniform delay, the other branches use it for the jitter factor
`0.8 + rand * 0.4`.  The `default` switch branch (hit by `trending`)
computes the same base as `bump`. -/
def calculateDelay (config : FormData) (rand : ℚ) : ℚ :=
  match config.mode with
  | .boost =>
      let baseDelay := (config.duration * 60 * 1000) / ((config.numberOfTrades : ℚ) * 2)
      baseDelay * (4/5 + rand * (2/5))
  | .bump =>
      let baseDelay := (config.duration * 60 * 1000) / (config.numberOfTrades : ℚ)
      baseDelay * (4/5 + rand * (2/5))
  | .advanced =>
      let minMs := jsOr config.customDelayMin 5 * 1000
      let maxMs := jsOr config.customDelayMax 30 * 1000
      rand * (maxMs - minMs) + minMs
  | .trending =>
      let baseDelay := (config.duration * 60 * 1000) / (config.numberOfTrades : ℚ)
      baseDelay * (4/5 + rand * (2/5))

/-- The Bump-mode configuration of testable property 2: 60 minutes, 100
trades. -/
def bumpTestConfig : FormData :=
  { tokenAddress := "token", numberOfTrades := 100, duration := 60,
    tradeSize := 1/100, slippageTolerance := 1, mode := .bump }

/-- An Advanced-mode configuration with `customDelayMin = 5`,
`customDelayMax = 30` and arbitrary duration and trade count. -/
def advTestConfig (d : ℚ) (n : ℕ) : FormData :=
  { tokenAddress := "token", numberOfTrades := n, duration := d,
    tradeSize := 1/100, slippageTolerance := 1, mode := .advanced,
    customDelayMin := some 5, customDelayMax := some 30 }

/-- C4: for Bump mode with durationMinutes = 60 and tradeCount = 100, the
base delay before jitter is 36000 ms — the returned delay is exactly
36000 times the jitter factor `0.8 + rand * 0.4` — the jitter factor lies
in [0.8, 1.2] for every draw in [0, 1], and the returned delay lies in
[28800, 43200] ms for every such factor value. -/
theorem bump_delay_bounds (r : ℚ) (h0 : 0 ≤ r) (h1 : r ≤ 1) :
    calculateDelay bumpTestConfig r = 36000 * (4/5 + r * (2/5)) ∧
    4/5 ≤ 4/5 + r * (2/5) ∧ 4/5 + r * (2/5) ≤ 6/5 ∧
    28800 ≤ calculateDelay bumpTestConfig r ∧
    calculateDelay bumpTestConfig r ≤ 43200 := by
  have he : calculateDelay bumpTestConfig r = 36000 * (4/5 + r * (2/5)) := by
    show (60 * 60 * 1000 : ℚ) / ((100 : ℕ) : ℚ) * (4/5 + r * (2/5)) = _
    norm_num
  refine ⟨he, by nlinarith, by nlinarith, ?_, ?_⟩ <;> rw [he] <;> nlinarith

/-- Witness for C4 at the concrete draw 1/2. -/
theorem bump_delay_bounds_witness :
    calculateDelay bumpTestConfig (1/2) = 36000 * (4/5 + (1/2) * (2/5)) ∧
    4/5 ≤ 4/5 + (1/2 : ℚ) * (2/5) ∧ 4/5 + (1/2 : ℚ) * (2/5) ≤ 6/5 ∧
    28800 ≤ calculateDelay bumpTestConfig (1/2) ∧
    calculateDelay bumpTestConfig (1/2) ≤ 43200 :=
  bump_delay_bounds (1/2) (by norm_num) (by norm_num)

/-- C5: in Advanced mode with customDelayMin = 5 and customDelayMax = 30,
every delay returned by calculateDelay lies in [5000, 30000] ms, the result
is independent of durationMinutes and tradeCount, and two different draws
produce different delays. -/
theorem advanced_delay_bounds (d d' : ℚ) (n n' : ℕ) (r : ℚ)
    (h0 : 0 ≤ r) (h1 : r ≤ 1) :
    5000 ≤ calculateDelay (advTestConfig d n) r ∧
    calculateDelay (advTestConfig d n) r ≤ 30000 ∧
    calculateDelay (advTestConfig d n) r = calculateDelay (advTestConfig d' n') r ∧
    calculateDelay (advTestConfig d n) 0 ≠ calculateDelay (advTestConfig d n) 1 := by
  have he : ∀ (e : ℚ) (m : ℕ) (x : ℚ),
      calculateDelay (advTestConfig e m) x = x * (30000 - 5000) + 5000 := by
    intro e m x
    show x * (jsOr (some 30) 30 * 1000 - jsOr (some 5) 5 * 1000) +
        jsOr (some 5) 5 * 1000 = _
    norm_num [jsOr]
  refine ⟨?_, ?_, ?_, ?_⟩
  · rw [he]; nlinarith
  · rw [he]; nlinarith
  · rw [he, he]
  · rw [he, he]; norm_num

/-- Witness for C5 at draw 1/2 with two distinct duration/trade-count
pairs. -/
theorem advanced_delay_bounds_witness :
    5000 ≤ calculateDelay (advTestConfig 60 100) (1/2) ∧
    calculateDelay (advTestConfig 60 100) (1/2) ≤ 30000 ∧
    calculateDelay (advTestConfig 60 100) (1/2) = calculateDelay (advTestConfig 7 13) (1/2) ∧
    calculateDelay (advTestConfig 60 100) 0 ≠ calculateDelay (advTestConfig 60 100) 1 :=
  advanced_delay_bounds 60 7 100 13 (1/2) (by norm_num) (by norm_num)

/-- The `currentStatus` union of `ProgressStats`. -/
inductive Status
  | running
  | paused
  | error
  | completed
deriving DecidableEq, Repr

/-- The `type` union of a `TradeLog` entry. -/
inductive TradeType
  | buy
  | sell
deriving DecidableEq, Repr

/-- The `status` union of a `TradeLog` entry. -/
inductive LogStatus
  | success
  | failed
  | pending
deriving DecidableEq, Repr

/-- A `TradeLog` entry of src/app/page.tsx; timestamps are abstract ticks. -/
structure TradeLog where
  id : String
  timestamp : ℕ
  type : TradeType
  amount : ℚ
  status : LogStatus
  txHash : Option String := none
  error : Option String := none
deriving DecidableEq, Repr

/-- The result record returned by `executeSwap` (it catches every error, so
a swap always resolves with such a record and never rejects). -/
structure SwapResult where
  success : Bool
  txHash : Option String := none
  error : Option String := none
deriving DecidableEq, Repr

/-- The `ProgressStats` record of src/app/page.tsx. -/
structure ProgressStats where
  tradesCompleted : ℕ
  totalTrades : ℕ
  volumeGenerated : ℚ
  successfulTrades : ℕ
  failedTrades : ℕ
  estimatedCompletion : ℚ
  currentStatus : Status
deriving DecidableEq, Repr

/-- One resolved call of `executeTradePair` from src/app/page.tsx, as a
function of the two swap outcomes of its legs.  `buyTime` is the
`Date.now()` used for the trade id and buy-leg timestamp, `sellTime` the
sell-leg timestamp.  `sellResult` is only consulted when the buy leg
succeeds: on a buy failure the function records the failure and returns
before creating the sell leg. -/
def executeTradePair (config : FormData) (buyTime sellTime : ℕ)
    (buyResult sellResult : SwapResult)
    (stats : ProgressStats) (logs : List TradeLog) :
    ProgressStats × List TradeLog :=
  let tradeId := toString buyTime
  let buyLog : TradeLog :=
    { id := tradeId ++ "_buy", timestamp := buyTime, type := .buy,
      amount := config.tradeSize, status := .pending }
  let logs1 := logs ++ [buyLog]
  let logs2 := logs1.map fun log =>
    if log.id = buyLog.id then
      { log with
          status := if buyResult.success then .success else .failed,
          txHash := buyResult.txHash, error := buyResult.error }
    else log
  if !buyResult.success then
    ({ stats with failedTrades := stats.failedTrades + 1 }, logs2)
  else
    let sellLog : TradeLog :=
      { id := tradeId ++ "_sell", timestamp := sellTime, type := .sell,
        amount := config.tradeSize, status := .pending }
    let logs3 := logs2 ++ [sellLog]
    let logs4 := logs3.map fun log =>
      if log.id = sellLog.id then
        { log with
            status := if sellResult.success then .success else .failed,
            txHash := sellResult.txHash, error := sellResult.error }
      else log
    let bothSuccessful := buyResult.success && sellResult.success
    ({ stats with
        tradesCompleted := stats.tradesCompleted + 1,
        successfulTrades :=
          if bothSuccessful then stats.successfulTrades + 1 else stats.successfulTrades,
        failedTrades :=
          if bothSuccessful then stats.failedTrades else stats.failedTrades + 1,
        volumeGenerated := stats.volumeGenerated + config.tradeSize * 2 * 100,
        estimatedCompletion :=
          max 0 (stats.estimatedCompletion - config.duration / (config.numberOfTrades : ℚ)) },
     logs4)

/-- The mutable page state driven by the local pacing loop: the `isRunning`
flag, the stats, the trade log, whether `intervalRef` holds a pending
timer, and the `tradeCountRef` counter. -/
structure BotState where
  isRunning : Bool
  stats : ProgressStats
  tradeLogs : List TradeLog
  timerSet : Bool
  tradeCount : ℕ
deriving DecidableEq, Repr

/-- `stopBot` from src/app/page.tsx: clears the pending timer (if any),
clears `isRunning` and marks the stats completed. -/
def stopBot (s : BotState) : BotState :=
  { s with timerSet := false, isRunning := false,
           stats := { s.stats with currentStatus := .completed } }

/-- `startBot` from src/app/page.tsx: a missing wallet aborts with no state
change; otherwise the stats are zeroed, the log cleared, the trade counter
reset and the first trade timer scheduled.  The function reads neither
`isRunning` nor any previous counter. -/
def startBot (config : FormData) (hasPublicKey : Bool) (s : BotState) : BotState :=
  if !hasPublicKey then s
  else
    { isRunning := true,
      stats := { tradesCompleted := 0, totalTrades := config.numberOfTrades,
                 volumeGenerated := 0, successfulTrades := 0, failedTrades := 0,
                 estimatedCompletion := config.duration, currentStatus := .running },
      tradeLogs := [],
      timerSet := true,
      tradeCount := 0 }

/-- The environment outcome of one firing of the inner `executeTrade`
callback: either `executeTradePair` rejects (the `catch` branch schedules a
retry; the only conceivable throw points precede every stats update), or it
resolves with the two leg outcomes. -/
inductive TradeOutcome
  | reject
  | pair (buyTime sellTime : ℕ) (buyResult sellResult : SwapResult)
deriving DecidableEq, Repr

/-- One firing of the `executeTrade` callback inside `startBot`: stop when
the counter has reached the configured trade count, otherwise run the trade
pair, bump the counter and either stop (count reached) or schedule the next
timer; on rejection schedule a 10 s retry without touching the counter. -/
def executeTradeStep (config : FormData) (o : TradeOutcome) (s : BotState) : BotState :=
  if s.tradeCount ≥ config.numberOfTrades then stopBot s
  else
    match o with
    | .reject => { s with timerSet := true }
    | .pair buyTime sellTime buyResult sellResult =>
        let r := executeTradePair config buyTime sellTime buyResult sellResult
          s.stats s.tradeLogs
        let s1 : BotState :=
          { s with stats := r.1, tradeLogs := r.2, tradeCount := s.tradeCount + 1 }
        if s1.tradeCount ≥ config.numberOfTrades then stopBot s1
        else { s1 with timerSet := true }

/-- The timer-driven pacing loop: each listed outcome fires the pending
timer, if one is set; once the timer is cleared (`stopBot`) the state is
final. -/
def runTrades (config : FormData) (outcomes : List TradeOutcome) (s : BotState) : BotState :=
  outcomes.foldl (fun t o => if t.timerSet then executeTradeStep config o t else t) s

theorem runTrades_nil (config : FormData) (s : BotState) :
    runTrades config [] s = s := rfl

theorem runTrades_cons (config : FormData) (o : TradeOutcome)
    (os : List TradeOutcome) (s : BotState) :
    runTrades config (o :: os) s =
      runTrades config os (if s.timerSet then executeTradeStep config o s else s) := rfl

/-- The inductive invariant of the pacing loop: the configured total is
recorded in the stats, the success/failure tally equals the trade counter,
the counter is bounded by the configured count, `tradesCompleted` lags the
counter, successes lag `tradesCompleted`, and a completed status certifies
that the counter has reached the configured count. -/
def LoopInv (config : FormData) (s : BotState) : Prop :=
  s.stats.totalTrades = config.numberOfTrades ∧
  s.stats.successfulTrades + s.stats.failedTrades = s.tradeCount ∧
  s.tradeCount ≤ config.numberOfTrades ∧
  s.stats.tradesCompleted ≤ s.tradeCount ∧
  s.stats.successfulTrades ≤ s.stats.tradesCompleted ∧
  (s.stats.currentStatus = .completed → s.tradeCount = config.numberOfTrades)

theorem executeTradeStep_inv (config : FormData) (o : TradeOutcome) (s : BotState)
    (h : LoopInv config s) : LoopInv config (executeTradeStep config o s) := by
  obtain ⟨h1, h2, h3, h4, h5, h6⟩ := h
  unfold executeTradeStep
  by_cases hge : s.tradeCount ≥ config.numberOfTrades
  · simp only [hge, if_true]
    exact ⟨h1, h2, h3, h4, h5, fun _ => le_antisymm h3 hge⟩
  · simp only [hge, if_false]
    match o with
    | .reject => exact ⟨h1, h2, h3, h4, h5, h6⟩
    | .pair bt st b se =>
        simp only
        by_cases hb : b.success
        · by_cases hs : se.success
          · simp only [executeTradePair, hb, hs, Bool.not_true, Bool.false_eq_true,
              if_false, Bool.and_self, if_true]
            by_cases hfin : s.tradeCount + 1 ≥ config.numberOfTrades
            · simp only [hfin, if_true, stopBot, LoopInv]
              refine ⟨h1, by omega, by omega, by omega, by omega, fun _ => by omega⟩
            · simp only [hfin, if_false, LoopInv]
              refine ⟨h1, by omega, by omega, by omega, by omega, ?_⟩
              intro hc
              exact absurd (h6 hc) (by omega)
          · simp only [executeTradePair, hb, hs, Bool.not_true, Bool.false_eq_true,
              if_false, Bool.and_false]
            by_cases hfin : s.tradeCount + 1 ≥ config.numberOfTrades
            · simp only [hfin, if_true, stopBot, LoopInv]
              refine ⟨h1, by omega, by omega, by omega, by omega, fun _ => by omega⟩
            · simp only [hfin, if_false, LoopInv]
              refine ⟨h1, by omega, by omega, by omega, by omega, ?_⟩
              intro hc
              exact absurd (h6 hc) (by omega)
        · simp only [executeTradePair, hb, Bool.not_false, if_true]
          by_cases hfin : s.tradeCount + 1 ≥ config.numberOfTrades
          · simp only [hfin, if_true, stopBot, LoopInv]
            refine ⟨h1, by omega, by omega, by omega, by omega, fun _ => by omega⟩
          · simp only [hfin, if_false, LoopInv]
            refine ⟨h1, by omega, by omega, by omega, by omega, ?_⟩
            intro hc
            exact absurd (h6 hc) (by omega)

theorem runTrades_inv (config : FormData) (outcomes : List TradeOutcome) (s : BotState)
    (h : LoopInv config s) : LoopInv config (runTrades config outcomes s) := by
  induction outcomes generalizing s with
  | nil => exact h
  | cons o os ih =>
      rw [runTrades_cons]
      by_cases ht : s.timerSet
      · simp only [ht, if_true]
        exact ih _ (executeTradeStep_inv config o s h)
      · simp only [ht, if_false]
        exact ih _ h

theorem startBot_inv (config : FormData) (s : BotState) :
    LoopInv config (startBot config true s) := by
  simp [startBot, LoopInv]

/-- C1: for every configuration, when a locally-driven run reaches status
completed via the pacing loop, the configured trade count equals
successfulTrades + failedTrades: every resolved trade pair increments
exactly one of the two tallies (buy-leg failures included) and rejected
attempts increment neither before being retried. -/
theorem completed_run_trade_accounting (config : FormData)
    (outcomes : List TradeOutcome) (s0 : BotState)
    (h : (runTrades config outcomes (startBot config true s0)).stats.currentStatus
          = .completed) :
    config.numberOfTrades =
      (runTrades config outcomes (startBot config true s0)).stats.successfulTrades +
      (runTrades config outcomes (startBot config true s0)).stats.failedTrades := by
  obtain ⟨h1, h2, h3, h4, h5, h6⟩ :=
    runTrades_inv config outcomes (startBot config true s0) (startBot_inv config s0)
  have hc := h6 h
  omega

/-- A three-trade Bump configuration used for concrete pacing-loop runs. -/
def pacingConfig : FormData :=
  { tokenAddress := "token", numberOfTrades := 3, duration := 3,
    tradeSize := 1/100, slippageTolerance := 1, mode := .bump }

/-- A successful swap outcome. -/
def okSwap : SwapResult := { success := true, txHash := some "tx" }

/-- A failed swap outcome. -/
def failedSwap : SwapResult := { success := false, error := some "swap failed" }

/-- The page state before any campaign starts. -/
def idleState : BotState :=
  { isRunning := false,
    stats := { tradesCompleted := 0, totalTrades := 0, volumeGenerated := 0,
               successfulTrades := 0, failedTrades := 0, estimatedCompletion := 0,
               currentStatus := .running },
    tradeLogs := [], timerSet := false, tradeCount := 0 }

/-- A run of `pacingConfig`: a full success, one rejected attempt that is
retried, a buy-leg failure, and a pair whose sell leg fails. -/
def pacingOutcomes : List TradeOutcome :=
  [.pair 1 2 okSwap okSwap, .reject, .pair 3 4 failedSwap okSwap,
   .pair 5 6 okSwap failedSwap]

/-- Witness for C1: the concrete run completes with 3 = 1 + 2. -/
theorem completed_run_trade_accounting_witness :
    pacingConfig.numberOfTrades =
      (runTrades pacingConfig pacingOutcomes
        (startBot pacingConfig true idleState)).stats.successfulTrades +
      (runTrades pacingConfig pacingOutcomes
        (startBot pacingConfig true idleState)).stats.failedTrades :=
  completed_run_trade_accounting pacingConfig pacingOutcomes idleState (by decide)

/-- C2 counterexample: in the state reached immediately after a buy-leg
failure is recorded, failedTrades has been incremented without
tradesCompleted, so successfulTrades + failedTrades exceeds
tradesCompleted, refuting the claimed inequality. -/
theorem buy_failure_violates_inequality :
    ¬ ((executeTradeStep pacingConfig (.pair 1 2 failedSwap okSwap)
          (startBot pacingConfig true idleState)).stats.successfulTrades +
       (executeTradeStep pacingConfig (.pair 1 2 failedSwap okSwap)
          (startBot pacingConfig true idleState)).stats.failedTrades ≤
       (executeTradeStep pacingConfig (.pair 1 2 failedSwap okSwap)
          (startBot pacingConfig true idleState)).stats.tradesCompleted) := by
  decide

/-- C2 amended: for every reachable state of a locally-driven run,
successfulTrades ≤ tradesCompleted ≤ totalTrades and
tradesCompleted ≤ successfulTrades + failedTrades ≤ totalTrades; a buy-leg
failure increments failedTrades without tradesCompleted, so the tally
successCount + failureCount can exceed completedCount (by the number of
buy-leg failures) and the claimed direction of that inequality fails. -/
theorem reachable_counter_bounds (config : FormData)
    (outcomes : List TradeOutcome) (s0 : BotState) :
    (runTrades config outcomes (startBot config true s0)).stats.successfulTrades ≤
      (runTrades config outcomes (startBot config true s0)).stats.tradesCompleted ∧
    (runTrades config outcomes (startBot config true s0)).stats.tradesCompleted ≤
      (runTrades config outcomes (startBot config true s0)).stats.totalTrades ∧
    (runTrades config outcomes (startBot config true s0)).stats.tradesCompleted ≤
      (runTrades config outcomes (startBot config true s0)).stats.successfulTrades +
      (runTrades config outcomes (startBot config true s0)).stats.failedTrades ∧
    (runTrades config outcomes (startBot config true s0)).stats.successfulTrades +
      (runTrades config outcomes (startBot config true s0)).stats.failedTrades ≤
      (runTrades config outcomes (startBot config true s0)).stats.totalTrades := by
  obtain ⟨h1, h2, h3, h4, h5, h6⟩ :=
    runTrades_inv config outcomes (startBot config true s0) (startBot_inv config s0)
  exact ⟨h5, by omega, by omega, by omega⟩

/-- C6: when the buy leg fails, the pair records the failure (failedTrades
incremented, the buy log entry marked failed), creates no sell log entry
(exactly one entry is appended), and the loop still schedules the next
operation while leaving the run in its running state. -/
theorem buy_leg_failure_continues (config : FormData) (bt st : ℕ)
    (b se : SwapResult) (stats : ProgressStats) (logs : List TradeLog)
    (s : BotState) (hb : b.success = false)
    (hcount : s.tradeCount + 1 < config.numberOfTrades) :
    (executeTradePair config bt st b se stats logs).1.failedTrades
        = stats.failedTrades + 1 ∧
    (executeTradePair config bt st b se stats logs).1.successfulTrades
        = stats.successfulTrades ∧
    (executeTradePair config bt st b se stats logs).2.getLast? =
      some { id := toString bt ++ "_buy", timestamp := bt, type := .buy,
             amount := config.tradeSize, status := .failed,
             txHash := b.txHash, error := b.error } ∧
    (executeTradePair config bt st b se stats logs).2.length = logs.length + 1 ∧
    (executeTradeStep config (.pair bt st b se) s).timerSet = true ∧
    (executeTradeStep config (.pair bt st b se) s).isRunning = s.isRunning ∧
    (executeTradeStep config (.pair bt st b se) s).stats.currentStatus
        = s.stats.currentStatus := by
  have hpair : ∀ (st' : ProgressStats) (lg : List TradeLog),
      executeTradePair config bt st b se st' lg =
        ({ st' with failedTrades := st'.failedTrades + 1 },
         lg.map (fun log =>
            if log.id = toString bt ++ "_buy" then
              { log with status := .failed, txHash := b.txHash, error := b.error }
            else log) ++
          [{ id := toString bt ++ "_buy", timestamp := bt, type := .buy,
             amount := config.tradeSize, status := .failed,
             txHash := b.txHash, error := b.error }]) := by
    intro st' lg
    simp [executeTradePair, hb, List.map_append]
  have hstep : executeTradeStep config (.pair bt st b se) s =
      { s with stats := (executeTradePair config bt st b se s.stats s.tradeLogs).1,
               tradeLogs := (executeTradePair config bt st b se s.stats s.tradeLogs).2,
               tradeCount := s.tradeCount + 1, timerSet := true } := by
    have h1 : ¬ (s.tradeCount ≥ config.numberOfTrades) := by omega
    have h2 : ¬ (s.tradeCount + 1 ≥ config.numberOfTrades) := by omega
    unfold executeTradeStep
    simp [h1, h2]
  refine ⟨?_, ?_, ?_, ?_, ?_, ?_, ?_⟩
  · rw [hpair]
  · rw [hpair]
  · rw [hpair]
    exact List.getLast?_concat _
  · rw [hpair]
    simp
  · rw [hstep]
  · rw [hstep]
  · rw [hstep]
    rw [hpair]

/-- Witness for C6: concrete buy-leg failure on an empty log, one step into
a three-trade run. -/
theorem buy_leg_failure_continues_witness :
    (executeTradePair pacingConfig 7 8 failedSwap okSwap idleState.stats []).1.failedTrades
        = idleState.stats.failedTrades + 1 ∧
    (executeTradePair pacingConfig 7 8 failedSwap okSwap idleState.stats []).1.successfulTrades
        = idleState.stats.successfulTrades ∧
    (executeTradePair pacingConfig 7 8 failedSwap okSwap idleState.stats []).2.getLast? =
      some { id := toString 7 ++ "_buy", timestamp := 7, type := .buy,
             amount := pacingConfig.tradeSize, status := .failed,
             txHash := failedSwap.txHash, error := failedSwap.error } ∧
    (executeTradePair pacingConfig 7 8 failedSwap okSwap idleState.stats []).2.length
        = List.length ([] : List TradeLog) + 1 ∧
    (executeTradeStep pacingConfig (.pair 7 8 failedSwap okSwap)
        (startBot pacingConfig true idleState)).timerSet = true ∧
    (executeTradeStep pacingConfig (.pair 7 8 failedSwap okSwap)
        (startBot pacingConfig true idleState)).isRunning
        = (startBot pacingConfig true idleState).isRunning ∧
    (executeTradeStep pacingConfig (.pair 7 8 failedSwap okSwap)
        (startBot pacingConfig true idleState)).stats.currentStatus
        = (startBot pacingConfig true idleState).stats.currentStatus :=
  buy_leg_failure_continues pacingConfig 7 8 failedSwap okSwap idleState.stats []
    (startBot pacingConfig true idleState) rfl (by decide)

/-- C7: stopBot is idempotent — a second call yields the same terminal
state — and after any call the pending timer is cancelled, isRunning is
false and the status is completed; the function reads nothing about an
in-flight operation, so it applies to every state. -/
theorem stopBot_idempotent (s : BotState) :
    stopBot (stopBot s) = stopBot s ∧
    (stopBot s).isRunning = false ∧
    (stopBot s).timerSet = false ∧
    (stopBot s).stats.currentStatus = .completed :=
  ⟨rfl, rfl, rfl, rfl⟩

/-- A mid-campaign running state with nonzero counters and a nonempty log. -/
def runningState : BotState :=
  { isRunning := true,
    stats := { tradesCompleted := 3, totalTrades := 10, volumeGenerated := 6,
               successfulTrades := 2, failedTrades := 1, estimatedCompletion := 30,
               currentStatus := .running },
    tradeLogs := [{ id := "9_buy", timestamp := 9, type := .buy, amount := 1/100,
                    status := .success }],
    timerSet := true, tradeCount := 3 }

/-- A ten-trade configuration used for the restart counterexample. -/
def restartConfig : FormData :=
  { tokenAddress := "token", numberOfTrades := 10, duration := 10,
    tradeSize := 1/100, slippageTolerance := 1, mode := .bump }

/-- C8 counterexample: startBot invoked on a state that is already Running
(wallet connected) is not rejected and not a no-op — it resets the counters
and clears the trade log. -/
theorem start_while_running_resets :
    runningState.isRunning = true ∧
    runningState.stats.tradesCompleted = 3 ∧
    runningState.tradeLogs ≠ [] ∧
    (startBot restartConfig true runningState).stats.tradesCompleted = 0 ∧
    (startBot restartConfig true runningState).stats.successfulTrades = 0 ∧
    (startBot restartConfig true runningState).tradeLogs = [] := by
  decide

/-- C8 amended: startBot contains no isRunning guard — with a connected
wallet it unconditionally reinitializes the run (zeroed counters, cleared
log, fresh timer) even while a run is already Running; the only no-op case
is a missing wallet.  Re-entrancy protection exists only in the UI layer,
which renders the start form only while no run is active. -/
theorem start_no_running_guard (config : FormData) (s : BotState) :
    startBot config false s = s ∧
    (startBot config true s).stats.tradesCompleted = 0 ∧
    (startBot config true s).stats.successfulTrades = 0 ∧
    (startBot config true s).stats.failedTrades = 0 ∧
    (startBot config true s).stats.volumeGenerated = 0 ∧
    (startBot config true s).tradeLogs = [] ∧
    (startBot config true s).timerSet = true ∧
    (startBot config true s).isRunning = true :=
  ⟨rfl, rfl, rfl, rfl, rfl, rfl, rfl, rfl⟩

/-- The `transactions` sub-record of a `BotProgressResponse` (src/lib/api.ts). -/
structure Transactions where
  total : ℕ
  successful : ℕ
  failed : ℕ
deriving DecidableEq, Repr

/-- The `BotProgressResponse` record of src/lib/api.ts, the remote
`ProgressSnapshot` consumed by the polling loop. -/
structure BotProgressResponse where
  job_id : String
  status : String
  completed_makers : ℕ
  total_makers : ℕ
  generated_volume : ℚ
  current_buy_ratio : ℚ
  progress_percentage : ℚ
  estimated_completion : Option ℚ := none
  transactions : Transactions
  active_wallets : ℕ
  error_message : Option String := none
deriving DecidableEq, Repr

/-- The extended `ProgressStats` record of the job-polling page revision,
with its optional backend-driven fields. -/
structure JobProgressStats where
  tradesCompleted : ℕ
  totalTrades : ℕ
  volumeGenerated : ℚ
  successfulTrades : ℕ
  failedTrades : ℕ
  estimatedCompletion : ℚ
  currentStatus : Status
  currentJobId : Option String := none
  activeBotJob : Option BotProgressResponse := none
  completedMakers : Option ℕ := none
  totalMakers : Option ℕ := none
  currentBuyRatio : Option ℚ := none
  activeWallets : Option ℕ := none
deriving DecidableEq, Repr

/-- The `setStats` updater applied by `startProgressPolling` to a
successful progress response: every field is copied from the snapshot;
`tradesCompleted` is `Math.floor(progress_percentage / 100 * totalTrades)`
(clamped at zero, as the field is a count). -/
def applyBotProgress (p : BotProgressResponse) (prev : JobProgressStats) :
    JobProgressStats :=
  { prev with
      activeBotJob := some p,
      completedMakers := some p.completed_makers,
      totalMakers := some p.total_makers,
      currentBuyRatio := some p.current_buy_ratio,
      volumeGenerated := p.generated_volume,
      activeWallets := some p.active_wallets,
      successfulTrades := p.transactions.successful,
      failedTrades := p.transactions.failed,
      tradesCompleted := (⌊p.progress_percentage / 100 * (prev.totalTrades : ℚ)⌋).toNat }

/-- The page state observed by the polling loop: the stats, the
`isRunning` flag, and whether the 5-second interval is still installed. -/
structure PollState where
  stats : JobProgressStats
  isRunning : Bool
  pollingActive : Bool
deriving DecidableEq, Repr

/-- The outcome of one poll tick: the `getBotProgress` request either
throws, or resolves with a success flag and optional data. -/
inductive PollEvent
  | failure
  | response (success : Bool) (data : Option BotProgressResponse)
deriving DecidableEq, Repr

/-- The interval period, in milliseconds, passed to `setInterval` by
`startProgressPolling`. -/
def pollIntervalMs : ℕ := 5000

/-- One tick of the `startProgressPolling` interval callback: a thrown
request or an unsuccessful/empty response changes nothing and polling
continues; a successful response updates the stats, and if its status is
the string completed or failed the interval is cleared, `isRunning`
dropped, and the local status set to completed resp. error. -/
def pollTick (e : PollEvent) (s : PollState) : PollState :=
  if !s.pollingActive then s
  else
    match e with
    | .failure => s
    | .response ok data =>
        match ok, data with
        | true, some p =>
            let stats1 := applyBotProgress p s.stats
            if p.status = "completed" || p.status = "failed" then
              { stats := { stats1 with currentStatus :=
                    if p.status = "completed" then .completed else .error },
                isRunning := false, pollingActive := false }
            else { s with stats := stats1 }
        | _, _ => s

/-- The stats of a freshly started ten-trade remote job. -/
def jobStats0 : JobProgressStats :=
  { tradesCompleted := 0, totalTrades := 10, volumeGenerated := 0,
    successfulTrades := 0, failedTrades := 0, estimatedCompletion := 60,
    currentStatus := .running, currentJobId := some "job-1" }

/-- A polling page state with the interval installed. -/
def pollState0 : PollState :=
  { stats := jobStats0, isRunning := true, pollingActive := true }

/-- A running snapshot reporting 50 % progress and 100 volume. -/
def snapHigh : BotProgressResponse :=
  { job_id := "job-1", status := "running", completed_makers := 5,
    total_makers := 10, generated_volume := 100, current_buy_ratio := 1,
    progress_percentage := 50,
    transactions := { total := 10, successful := 9, failed := 1 },
    active_wallets := 2 }

/-- A later running snapshot reporting lower progress and volume. -/
def snapLow : BotProgressResponse :=
  { snapHigh with generated_volume := 40, progress_percentage := 40 }

/-- C3 counterexample: the polling reducer copies the remote fields
verbatim, so a snapshot reporting lower values makes volumeGenerated drop
from 100 to 40 and tradesCompleted from 5 to 4 while the run is still
Running — the counters are not monotone across applied remote events. -/
theorem poll_reducer_not_monotone :
    (pollTick (.response true (some snapHigh)) pollState0).stats.volumeGenerated = 100 ∧
    (pollTick (.response true (some snapLow))
        (pollTick (.response true (some snapHigh)) pollState0)).stats.volumeGenerated = 40 ∧
    (pollTick (.response true (some snapHigh)) pollState0).stats.tradesCompleted = 5 ∧
    (pollTick (.response true (some snapLow))
        (pollTick (.response true (some snapHigh)) pollState0)).stats.tradesCompleted = 4 ∧
    (pollTick (.response true (some snapHigh)) pollState0).stats.currentStatus = .running ∧
    ¬ ((pollTick (.response true (some snapHigh)) pollState0).stats.volumeGenerated ≤
       (pollTick (.response true (some snapLow))
          (pollTick (.response true (some snapHigh)) pollState0)).stats.volumeGenerated) := by
  have h1 : pollTick (.response true (some snapHigh)) pollState0 =
      { stats := applyBotProgress snapHigh jobStats0,
        isRunning := true, pollingActive := true } := by
    simp [pollTick, pollState0, snapHigh]
  have h2 : pollTick (.response true (some snapLow))
      { stats := applyBotProgress snapHigh jobStats0,
        isRunning := true, pollingActive := true } =
      { stats := applyBotProgress snapLow (applyBotProgress snapHigh jobStats0),
        isRunning := true, pollingActive := true } := by
    simp [pollTick, snapLow, snapHigh]
  rw [h1, h2]
  refine ⟨rfl, rfl, ?_, ?_, rfl, by norm_num [applyBotProgress, snapHigh, snapLow, jobStats0]⟩
  · show (⌊(50 : ℚ) / 100 * ((10 : ℕ) : ℚ)⌋).toNat = 5
    norm_num
    rfl
  · show (⌊(40 : ℚ) / 100 * ((10 : ℕ) : ℚ)⌋).toNat = 4
    norm_num
    rfl

/-- C3 amended: local trade-pair outcomes are monotone — tradesCompleted
and volumeGenerated never decrease (for a non-negative trade size) and
estimatedCompletion never increases (for non-negative duration and current
estimate) — but the polling reducer overwrites volumeGenerated with the
remote value verbatim and leaves estimatedCompletion untouched, so across
remote snapshots the counters are non-decreasing only when the remote
sequence itself is. -/
theorem progress_event_monotonicity (config : FormData) (bt st : ℕ)
    (b se : SwapResult) (stats : ProgressStats) (logs : List TradeLog)
    (p : BotProgressResponse) (js : JobProgressStats)
    (hsize : 0 ≤ config.tradeSize) (hdur : 0 ≤ config.duration)
    (hest : 0 ≤ stats.estimatedCompletion) :
    stats.tradesCompleted ≤
      (executeTradePair config bt st b se stats logs).1.tradesCompleted ∧
    stats.volumeGenerated ≤
      (executeTradePair config bt st b se stats logs).1.volumeGenerated ∧
    (executeTradePair config bt st b se stats logs).1.estimatedCompletion ≤
      stats.estimatedCompletion ∧
    (applyBotProgress p js).volumeGenerated = p.generated_volume ∧
    (applyBotProgress p js).estimatedCompletion = js.estimatedCompletion ∧
    (js.volumeGenerated ≤ p.generated_volume →
      js.volumeGenerated ≤ (applyBotProgress p js).volumeGenerated) := by
  have hd : 0 ≤ config.duration / (config.numberOfTrades : ℚ) :=
    div_nonneg hdur (by positivity)
  have h200 : 0 ≤ config.tradeSize * 2 * 100 := by linarith
  refine ⟨?_, ?_, ?_, rfl, rfl, ?_⟩
  · by_cases hb : b.success
    · simp [executeTradePair, hb]
    · simp [executeTradePair, hb]
  · by_cases hb : b.success
    · have hv : (executeTradePair config bt st b se stats logs).1.volumeGenerated
          = stats.volumeGenerated + config.tradeSize * 2 * 100 := by
        simp [executeTradePair, hb]
      rw [hv]
      linarith
    · simp [executeTradePair, hb]
  · by_cases hb : b.success
    · have hv : (executeTradePair config bt st b se stats logs).1.estimatedCompletion
          = max 0 (stats.estimatedCompletion - config.duration / (config.numberOfTrades : ℚ)) := by
        simp [executeTradePair, hb]
      rw [hv]
      exact max_le hest (by linarith [sub_le_self stats.estimatedCompletion hd])
    · simp [executeTradePair, hb]
  · intro h
    simpa [applyBotProgress] using h

/-- Witness for C3 amended at a concrete successful pair and snapshot. -/
theorem progress_event_monotonicity_witness :
    idleState.stats.tradesCompleted ≤
      (executeTradePair pacingConfig 1 2 okSwap okSwap idleState.stats []).1.tradesCompleted ∧
    idleState.stats.volumeGenerated ≤
      (executeTradePair pacingConfig 1 2 okSwap okSwap idleState.stats []).1.volumeGenerated ∧
    (executeTradePair pacingConfig 1 2 okSwap okSwap idleState.stats []).1.estimatedCompletion ≤
      idleState.stats.estimatedCompletion ∧
    (applyBotProgress snapHigh jobStats0).volumeGenerated = snapHigh.generated_volume ∧
    (applyBotProgress snapHigh jobStats0).estimatedCompletion = jobStats0.estimatedCompletion ∧
    (jobStats0.volumeGenerated ≤ snapHigh.generated_volume →
      jobStats0.volumeGenerated ≤ (applyBotProgress snapHigh jobStats0).volumeGenerated) :=
  progress_event_monotonicity pacingConfig 1 2 okSwap okSwap idleState.stats []
    snapHigh jobStats0 (by norm_num [pacingConfig]) (by norm_num [pacingConfig])
    (by norm_num [idleState])

/-- C10: polling runs on a fixed 5000 ms interval; a thrown poll changes
nothing and the loop keeps polling; a successful non-terminal snapshot
keeps the interval installed and the status unchanged; a snapshot whose
status is completed (resp. failed) clears the interval exactly then, drops
isRunning and moves the local status to completed (resp. error); once the
interval is cleared every further tick is a no-op. -/
theorem polling_contract (s : PollState) (p : BotProgressResponse) (e : PollEvent)
    (hact : s.pollingActive = true) :
    pollIntervalMs = 5000 ∧
    pollTick .failure s = s ∧
    (¬ p.status = "completed" → ¬ p.status = "failed" →
      (pollTick (.response true (some p)) s).pollingActive = true ∧
      (pollTick (.response true (some p)) s).stats.currentStatus = s.stats.currentStatus ∧
      (pollTick (.response true (some p)) s).isRunning = s.isRunning) ∧
    (p.status = "completed" →
      (pollTick (.response true (some p)) s).pollingActive = false ∧
      (pollTick (.response true (some p)) s).isRunning = false ∧
      (pollTick (.response true (some p)) s).stats.currentStatus = .completed) ∧
    (p.status = "failed" →
      (pollTick (.response true (some p)) s).pollingActive = false ∧
      (pollTick (.response true (some p)) s).isRunning = false ∧
      (pollTick (.response true (some p)) s).stats.currentStatus = .error) ∧
    (∀ t : PollState, t.pollingActive = false → pollTick e t = t) := by
  refine ⟨rfl, ?_, ?_, ?_, ?_, ?_⟩
  · simp [pollTick, hact]
  · intro h1 h2
    simp [pollTick, hact, h1, h2, applyBotProgress]
  · intro h1
    simp [pollTick, hact, h1]
  · intro h1
    have h2 : ¬ p.status = "completed" := by simp [h1]
    simp [pollTick, hact, h1, h2]
  · intro t ht
    cases e <;> simp [pollTick, ht]

/-- Witness for C10 at the concrete active state and running snapshot. -/
theorem polling_contract_witness :
    pollIntervalMs = 5000 ∧
    pollTick .failure pollState0 = pollState0 ∧
    (¬ snapHigh.status = "completed" → ¬ snapHigh.status = "failed" →
      (pollTick (.response true (some snapHigh)) pollState0).pollingActive = true ∧
      (pollTick (.response true (some snapHigh)) pollState0).stats.currentStatus =
        pollState0.stats.currentStatus ∧
      (pollTick (.response true (some snapHigh)) pollState0).isRunning =
        pollState0.isRunning) ∧
    (snapHigh.status = "completed" →
      (pollTick (.response true (some snapHigh)) pollState0).pollingActive = false ∧
      (pollTick (.response true (some snapHigh)) pollState0).isRunning = false ∧
      (pollTick (.response true (some snapHigh)) pollState0).stats.currentStatus =
        .completed) ∧
    (snapHigh.status = "failed" →
      (pollTick (.response true (some snapHigh)) pollState0).pollingActive = false ∧
      (pollTick (.response true (some snapHigh)) pollState0).isRunning = false ∧
      (pollTick (.response true (some snapHigh)) pollState0).stats.currentStatus =
        .error) ∧
    (∀ t : PollState, t.pollingActive = false → pollTick .failure t = t) :=
  polling_contract pollState0 snapHigh .failure rfl

/-- The `newErrors` record built by `validateForm` (src/components/Form.tsx):
one optional message per checked field, every check filling its own slot
independently of the others. -/
structure ValidationErrors where
  wallet : Option String := none
  balance : Option String := none
  tokenAddress : Option String := none
  numberOfTrades : Option String := none
  duration : Option String := none
  tradeSize : Option String := none
  slippageTolerance : Option String := none
  customDelayMin : Option String := none
  customDelayMax : Option String := none
deriving DecidableEq, Repr

/-- The JS test `!formData.customDelayMin`: true when the field is absent
or zero. -/
def numFalsy (x : Option ℚ) : Bool :=
  match x with
  | none => true
  | some v => decide (v = 0)

/-- The Advanced-mode minimum-delay check
`!customDelayMin || customDelayMin < 1`, identical in both revisions. -/
def delayMinInvalid (mn : Option ℚ) : Bool :=
  numFalsy mn || decide (mn.getD 0 < 1)

/-- The Advanced-mode maximum-delay check
`!customDelayMax || customDelayMax < (customDelayMin || 1)`, identical in
both revisions. -/
def delayMaxInvalid (mn mx : Option ℚ) : Bool :=
  numFalsy mx || decide (mx.getD 0 < jsOr mn 1)

namespace FormV1

/-- `validateForm` of the first Form.tsx revision (trade-count bounds
[100, 10000], no pool check).  `isValidAddress` stands for the external
`new PublicKey(...)` parse; `connected` and `solBalance` are the wallet
inputs read by the closure. -/
def validateForm (isValidAddress : String → Bool) (connected : Bool)
    (solBalance : ℚ) (fd : FormData) : ValidationErrors :=
  { wallet := if connected = false then some "Please connect your wallet first" else none,
    balance :=
      if connected = true ∧ solBalance = 0 then
        some "Unable to fetch SOL balance. Please ensure you have sufficient SOL (minimum 0.1 SOL recommended)"
      else if connected = true ∧ 0 < solBalance ∧ solBalance < 1/100 then
        some "Low SOL balance. Minimum 0.01 SOL required for trading"
      else none,
    tokenAddress :=
      if fd.tokenAddress = "" then some "Token address is required"
      else if isValidAddress fd.tokenAddress = false then some "Invalid Solana address"
      else none,
    numberOfTrades :=
      if fd.numberOfTrades < 100 ∨ fd.numberOfTrades > 10000 then
        some "Number of trades must be between 100 and 10,000"
      else none,
    duration :=
      if fd.duration < 1 ∨ fd.duration > 1440 then
        some "Duration must be between 1 and 1,440 minutes (24 hours)"
      else none,
    tradeSize :=
      if fd.tradeSize < 1/100 ∨ fd.tradeSize > 1/10 then
        some "Trade size must be between 0.01 and 0.1 SOL"
      else none,
    slippageTolerance :=
      if fd.slippageTolerance < 1/10 ∨ fd.slippageTolerance > 10 then
        some "Slippage tolerance must be between 0.1% and 10%"
      else none,
    customDelayMin :=
      if fd.mode = .advanced ∧ delayMinInvalid fd.customDelayMin = true then
        some "Minimum delay is required and must be at least 1 second"
      else none,
    customDelayMax :=
      if fd.mode = .advanced ∧ delayMaxInvalid fd.customDelayMin fd.customDelayMax = true then
        some "Maximum delay must be greater than minimum delay"
      else none }

end FormV1

namespace FormV2

/-- `validateForm` of the second Form.tsx revision: trade-count bounds
[10, 100] and a Raydium-pool existence check folded into the
token-address slot; otherwise identical to the first revision. -/
def validateForm (isValidAddress : String → Bool) (connected : Bool)
    (solBalance : ℚ) (poolExists : Option Bool) (fd : FormData) : ValidationErrors :=
  { wallet := if connected = false then some "Please connect your wallet first" else none,
    balance :=
      if connected = true ∧ solBalance = 0 then
        some "Unable to fetch SOL balance. Please ensure you have sufficient SOL (minimum 0.1 SOL recommended)"
      else if connected = true ∧ 0 < solBalance ∧ solBalance < 1/100 then
        some "Low SOL balance. Minimum 0.01 SOL required for trading"
      else none,
    tokenAddress :=
      if fd.tokenAddress = "" then some "Token address is required"
      else if isValidAddress fd.tokenAddress = false then some "Invalid Solana address"
      else if poolExists = some false then
        some "No Raydium pool found for this token. Volume bot requires an existing pool."
      else none,
    numberOfTrades :=
      if fd.numberOfTrades < 10 ∨ fd.numberOfTrades > 100 then
        some "Number of trades must be between 10 and 100"
      else none,
    duration :=
      if fd.duration < 1 ∨ fd.duration > 1440 then
        some "Duration must be between 1 and 1,440 minutes (24 hours)"
      else none,
    tradeSize :=
      if fd.tradeSize < 1/100 ∨ fd.tradeSize > 1/10 then
        some "Trade size must be between 0.01 and 0.1 SOL"
      else none,
    slippageTolerance :=
      if fd.slippageTolerance < 1/10 ∨ fd.slippageTolerance > 10 then
        some "Slippage tolerance must be between 0.1% and 10%"
      else none,
    customDelayMin :=
      if fd.mode = .advanced ∧ delayMinInvalid fd.customDelayMin = true then
        some "Minimum delay is required and must be at least 1 second"
      else none,
    customDelayMax :=
      if fd.mode = .advanced ∧ delayMaxInvalid fd.customDelayMin fd.customDelayMax = true then
        some "Maximum delay must be greater than minimum delay"
      else none }

end FormV2

/-- The invalid input of testable property 7: empty token address, 5
trades, 2000-minute duration. -/
def invalidInput : FormData :=
  { tokenAddress := "", numberOfTrades := 5, duration := 2000,
    tradeSize := 1/100, slippageTolerance := 1, mode := .bump }

/-- C9: on the input with an empty tokenAddress, 5 trades (out of bounds in
both revisions) and a 2000-minute duration, validateForm reports the token
address, trade count and duration violations simultaneously — in both Form
revisions, for every wallet state and address validator. -/
theorem validation_collects_all (isValidAddress : String → Bool)
    (connected : Bool) (solBalance : ℚ) (poolExists : Option Bool) :
    ((FormV1.validateForm isValidAddress connected solBalance invalidInput).tokenAddress.isSome ∧
     (FormV1.validateForm isValidAddress connected solBalance invalidInput).numberOfTrades.isSome ∧
     (FormV1.validateForm isValidAddress connected solBalance invalidInput).duration.isSome) ∧
    ((FormV2.validateForm isValidAddress connected solBalance poolExists invalidInput).tokenAddress.isSome ∧
     (FormV2.validateForm isValidAddress connected solBalance poolExists invalidInput).numberOfTrades.isSome ∧
     (FormV2.validateForm isValidAddress connected solBalance poolExists invalidInput).duration.isSome) := by
  refine ⟨⟨?_, ?_, ?_⟩, ⟨?_, ?_, ?_⟩⟩ <;>
    simp [FormV1.validateForm, FormV2.validateForm, invalidInput] <;> norm_num
